import Mathlib

/-!
Shallow embedding of `llama_wrapper.cpp`: the session lifecycle, prompt
prefill, incremental decode and reset operations of a single-sequence
llama.cpp chat wrapper.

The inference engine's own operations (tokenization, decode, sampling,
vocabulary queries) live outside this repository; they are modelled by an
abstract `Engine` record of pure functions. The wrapper's control flow and
state updates are translated directly from the C++ source. Native handles
(`llama_model*`, `llama_context*`, `llama_sampler*`, `const llama_vocab*`)
are modelled by booleans recording whether the handle is non-null. The
outcome of a nondeterministic external call (`llama_decode`'s return code,
`llama_sampler_sample`'s chosen token) is supplied as an explicit input.
-/

/-- One entry of a `llama_batch`: token id, position, number of sequence
ids, first sequence id, and whether logits are requested for this entry. -/
structure BatchEntry where
  token : Int
  pos : Nat
  n_seq_id : Int
  seq_id0 : Int
  logits : Bool
  deriving DecidableEq

/-- The engine collaborators of the wrapper, abstracted as pure functions:
`tokenize text addBos` models `common_tokenize` (the `add_special`
argument is `true` at both call sites, so it is not a parameter),
`decode` models the return code of `llama_decode` on a submitted batch,
`tokenToPiece` models `common_token_to_piece` (with `special = true`),
and `isEog` models `llama_vocab_is_eog`. -/
structure Engine where
  tokenize : String → Bool → List Int
  decode : List BatchEntry → Int
  tokenToPiece : Int → String
  isEog : Int → Bool

/-- The fields of `struct LlamaContextInternal`: handle-held flags for
`model`, `ctx`, `sampler` and `vocab` (true means non-null), the tracked
token sequence, the system-prompt text, the last-error text, the `loaded`
flag, and the two integer configuration fields. -/
structure LlamaContextInternal where
  model : Bool
  ctx : Bool
  sampler : Bool
  vocab : Bool
  tokens : List Int
  system_prompt : String
  last_error : String
  loaded : Bool
  n_ctx : Int
  n_gpu_layers : Int
  deriving DecidableEq

/-- The batch built by `llama_process_user_prompt`'s fill loop: for each
index `i` in `0 .. n_tokens - 1`, entry `i` carries `tokens[i]` at
position `i` with one sequence id `0`, and logits requested exactly when
`i == n_tokens - 1`. -/
def mkPromptBatch (tokens : List Int) : List BatchEntry :=
  (List.range tokens.length).map (fun i =>
    { token := tokens.getD i 0, pos := i, n_seq_id := 1, seq_id0 := 0,
      logits := i == tokens.length - 1 })

/-- `llama_create_context`. The external outcomes are supplied as inputs:
`modelLoadOk` is whether `llama_model_load_from_file` returned non-null,
`ctxCreateOk` is whether `llama_init_from_model` returned non-null.
Sampler-chain construction has no failure branch in the source. -/
def llama_create_context (model_path : String) (n_ctx n_gpu_layers : Int)
    (modelLoadOk ctxCreateOk : Bool) : LlamaContextInternal :=
  let internal : LlamaContextInternal :=
    { model := false, ctx := false, sampler := false, vocab := false,
      tokens := [], system_prompt := "", last_error := "", loaded := false,
      n_ctx := if n_ctx > 0 then n_ctx else 2048, n_gpu_layers := n_gpu_layers }
  if !modelLoadOk then
    { internal with last_error := "Failed to load model from: " ++ model_path }
  else
    let internal := { internal with model := true, vocab := true }
    if !ctxCreateOk then
      { internal with last_error := "Failed to create context", model := false }
    else
      { internal with ctx := true, sampler := true, loaded := true }

/-- `llama_is_loaded` (the non-null `ctx` guard is implicit: a state value
is always a live session here). -/
def llama_is_loaded (internal : LlamaContextInternal) : Bool :=
  internal.loaded

/-- `llama_get_error`. -/
def llama_get_error (internal : LlamaContextInternal) : String :=
  internal.last_error

/-- `llama_set_system_prompt`. A null `prompt` pointer is `none`. Returns
the status code and the updated state. -/
def llama_set_system_prompt (internal : LlamaContextInternal)
    (prompt : Option String) : Int × LlamaContextInternal :=
  if !internal.loaded then
    (-1, { internal with last_error := "Model not loaded" })
  else
    (0, { internal with system_prompt := prompt.getD "", tokens := [] })

/-- `llama_process_user_prompt`. A null `prompt` pointer is `none`; the
`max_tokens` argument is kept because the C signature has it. Returns the
status code, the updated state, and the batch submitted to `llama_decode`
(`none` when the call returned before reaching the decode). -/
def llama_process_user_prompt (e : Engine) (internal : LlamaContextInternal)
    (prompt : Option String) (max_tokens : Int) :
    Int × LlamaContextInternal × Option (List BatchEntry) :=
  match prompt with
  | none => (-1, internal, none)
  | some p =>
    if !internal.loaded then
      (-1, { internal with last_error := "Model not loaded" }, none)
    else
      let internal1 := { internal with tokens := ([] : List Int) }
      let internal2 :=
        if internal1.system_prompt = "" then internal1
        else { internal1 with
                tokens := internal1.tokens ++ e.tokenize internal1.system_prompt true }
      let user_tokens := e.tokenize p false
      if user_tokens = [] then
        (-1, { internal2 with last_error := "Failed to tokenize user prompt" }, none)
      else
        let internal3 := { internal2 with tokens := internal2.tokens ++ user_tokens }
        if internal3.tokens = [] then
          (-1, { internal3 with last_error := "No tokens to decode" }, none)
        else
          let batch := mkPromptBatch internal3.tokens
          let result := e.decode batch
          if result ≠ 0 then
            (-1, { internal3 with
                    last_error := "Failed to decode prompt (code: " ++ toString result ++ ")" },
             some batch)
          else
            (0, internal3, some batch)

/-- `llama_generate_next_token`. `sampled` is the token id that
`llama_sampler_sample` returned for this call. Returns the rendered piece
(`none` models the `nullptr` return), the updated state, and the batch
submitted to `llama_decode` (`none` when no decode was issued). -/
def llama_generate_next_token (e : Engine) (sampled : Int)
    (internal : LlamaContextInternal) :
    Option String × LlamaContextInternal × Option (List BatchEntry) :=
  if !internal.loaded then
    (none, internal, none)
  else if e.isEog sampled then
    (none, internal, none)
  else
    let token_str := e.tokenToPiece sampled
    let internal1 := { internal with tokens := internal.tokens ++ [sampled] }
    let n_tokens := internal1.tokens.length
    let batch : List BatchEntry :=
      [{ token := sampled, pos := n_tokens - 1, n_seq_id := 1, seq_id0 := 0,
         logits := true }]
    let result := e.decode batch
    if result ≠ 0 then
      (none, internal1, some batch)
    else
      (some token_str, internal1, some batch)

/-- `llama_reset_context`. The KV-cache clear acts only on engine-side
state; the wrapper-side effect is clearing the token list and the
system-prompt text, and only when loaded. -/
def llama_reset_context (internal : LlamaContextInternal) : LlamaContextInternal :=
  if !internal.loaded then internal
  else { internal with tokens := [], system_prompt := "" }

/-- The token sequence `llama_process_user_prompt` builds for a loaded
session: system-prompt tokens (skipped when the text is empty) followed
by user-prompt tokens. -/
def seqOf (e : Engine) (st : LlamaContextInternal) (u : String) : List Int :=
  (if st.system_prompt = "" then [] else e.tokenize st.system_prompt true)
    ++ e.tokenize u false

/-- A fully loaded session with a non-empty system prompt, used to
instantiate theorems on concrete inputs. -/
def loadedState : LlamaContextInternal :=
  { model := true, ctx := true, sampler := true, vocab := true,
    tokens := [], system_prompt := "sys", last_error := "", loaded := true,
    n_ctx := 2048, n_gpu_layers := 0 }

/-- A session that never finished loading, with no error recorded yet. -/
def unloadedState : LlamaContextInternal :=
  { model := false, ctx := false, sampler := false, vocab := false,
    tokens := [], system_prompt := "", last_error := "", loaded := false,
    n_ctx := 2048, n_gpu_layers := 0 }

/-- A concrete engine: tokenization of the empty string is empty, every
other text tokenizes to a fixed short list, decode always succeeds,
pieces render as a non-empty string, and token `99` is end-of-generation. -/
def testEngine : Engine :=
  { tokenize := fun s b => if s = "" then [] else if b then [0, 1] else [2],
    decode := fun _ => 0,
    tokenToPiece := fun _ => "x",
    isEog := fun t => t == 99 }

/-- A concrete engine whose tokenizer always returns zero tokens. -/
def zeroTokEngine : Engine :=
  { tokenize := fun _ _ => [],
    decode := fun _ => 0,
    tokenToPiece := fun _ => "x",
    isEog := fun _ => false }

/-- A concrete engine whose decode always fails with code 5. -/
def failDecodeEngine : Engine :=
  { tokenize := fun s _ => if s = "" then [] else [3],
    decode := fun _ => 5,
    tokenToPiece := fun _ => "x",
    isEog := fun _ => false }

/-- A concrete engine that renders every token to the empty string and
never reports end-of-generation. -/
def emptyPieceEngine : Engine :=
  { tokenize := fun _ _ => [1],
    decode := fun _ => 0,
    tokenToPiece := fun _ => "",
    isEog := fun _ => false }

theorem mkPromptBatch_length (T : List Int) :
    (mkPromptBatch T).length = T.length := by
  simp [mkPromptBatch]

theorem mkPromptBatch_getD (T : List Int) (d : BatchEntry) (i : Nat)
    (h : i < T.length) :
    (mkPromptBatch T).getD i d =
      { token := T.getD i 0, pos := i, n_seq_id := 1, seq_id0 := 0,
        logits := i == T.length - 1 } := by
  rw [List.getD_eq_getElem _ _ (by simpa [mkPromptBatch_length] using h)]
  simp [mkPromptBatch]

theorem seqOf_eq_append (e : Engine) (st : LlamaContextInternal) (u : String)
    (hempty : e.tokenize "" true = []) :
    seqOf e st u = e.tokenize st.system_prompt true ++ e.tokenize u false := by
  unfold seqOf
  by_cases hs : st.system_prompt = "" <;> simp [hs, hempty]

theorem process_user_prompt_eq (e : Engine) (st : LlamaContextInternal)
    (u : String) (m : Int) (hload : st.loaded = true)
    (huser : e.tokenize u false ≠ []) :
    llama_process_user_prompt e st (some u) m =
      (if e.decode (mkPromptBatch (seqOf e st u)) ≠ 0 then -1 else 0,
       { st with
          tokens := seqOf e st u,
          last_error :=
            if e.decode (mkPromptBatch (seqOf e st u)) ≠ 0 then
              "Failed to decode prompt (code: "
                ++ toString (e.decode (mkPromptBatch (seqOf e st u))) ++ ")"
            else st.last_error },
       some (mkPromptBatch (seqOf e st u))) := by
  unfold llama_process_user_prompt seqOf
  by_cases hs : st.system_prompt = "" <;>
    by_cases hd : e.decode (mkPromptBatch (seqOf e st u)) ≠ 0 <;>
    simp_all [seqOf, hload, huser]

/-- C1: for a loaded session, `llama_process_user_prompt` rebuilds the
tracked token sequence to `tokenize(system_prompt, bos) ++
tokenize(user, no-bos)` with positive length, and a second call in a row
replaces the sequence (its result is again that formula for the second
user prompt, independent of the first call's tokens). The hypothesis
`hempty` is the spec's tokenizer contract that an empty text tokenizes to
the empty sequence. -/
theorem llama_process_user_prompt_rebuilds (e : Engine)
    (st : LlamaContextInternal) (u u2 : String) (m m2 : Int)
    (hload : st.loaded = true)
    (hempty : e.tokenize "" true = [])
    (huser : e.tokenize u false ≠ [])
    (huser2 : e.tokenize u2 false ≠ []) :
    ((llama_process_user_prompt e st (some u) m).2.1).tokens
        = e.tokenize st.system_prompt true ++ e.tokenize u false ∧
    0 < ((llama_process_user_prompt e st (some u) m).2.1).tokens.length ∧
    ((llama_process_user_prompt e
        ((llama_process_user_prompt e st (some u) m).2.1) (some u2) m2).2.1).tokens
        = e.tokenize st.system_prompt true ++ e.tokenize u2 false := by
  have h1 := process_user_prompt_eq e st u m hload huser
  have htok : ((llama_process_user_prompt e st (some u) m).2.1).tokens
      = seqOf e st u := by rw [h1]
  have hl : ((llama_process_user_prompt e st (some u) m).2.1).loaded = true := by
    rw [h1]; exact hload
  have hsp : ((llama_process_user_prompt e st (some u) m).2.1).system_prompt
      = st.system_prompt := by rw [h1]
  have h2 := process_user_prompt_eq e
    ((llama_process_user_prompt e st (some u) m).2.1) u2 m2 hl huser2
  have htok2 : ((llama_process_user_prompt e
      ((llama_process_user_prompt e st (some u) m).2.1) (some u2) m2).2.1).tokens
      = seqOf e ((llama_process_user_prompt e st (some u) m).2.1) u2 := by rw [h2]
  have hseq2 : seqOf e ((llama_process_user_prompt e st (some u) m).2.1) u2
      = seqOf e st u2 := by unfold seqOf; rw [hsp]
  refine ⟨by rw [htok, seqOf_eq_append e st u hempty], ?_,
    by rw [htok2, hseq2, seqOf_eq_append e st u2 hempty]⟩
  rw [htok, seqOf_eq_append e st u hempty]
  have hpos := List.length_pos.mpr huser
  rw [List.length_append]
  omega

/-- Witness for C1 at a concrete engine, session and prompts. -/
theorem llama_process_user_prompt_rebuilds_witness :
    loadedState.loaded = true ∧
    testEngine.tokenize "" true = [] ∧
    testEngine.tokenize "hi" false ≠ [] ∧
    testEngine.tokenize "yo" false ≠ [] ∧
    (((llama_process_user_prompt testEngine loadedState (some "hi") 7).2.1).tokens
        = testEngine.tokenize loadedState.system_prompt true
            ++ testEngine.tokenize "hi" false ∧
     0 < ((llama_process_user_prompt testEngine loadedState (some "hi") 7).2.1).tokens.length ∧
     ((llama_process_user_prompt testEngine
        ((llama_process_user_prompt testEngine loadedState (some "hi") 7).2.1)
        (some "yo") 8).2.1).tokens
        = testEngine.tokenize loadedState.system_prompt true
            ++ testEngine.tokenize "yo" false) :=
  ⟨by decide, by decide, by decide, by decide,
   llama_process_user_prompt_rebuilds testEngine loadedState "hi" "yo" 7 8
     (by decide) (by decide) (by decide) (by decide)⟩

/-- C2: the batch `llama_process_user_prompt` submits to decode has entry
`i` holding the `i`-th tracked token at position `i`, with logits
requested exactly on the final entry. -/
theorem llama_process_user_prompt_batch_layout (e : Engine)
    (st : LlamaContextInternal) (u : String) (m : Int) (d : BatchEntry)
    (hload : st.loaded = true) (huser : e.tokenize u false ≠ []) :
    ∃ batch,
      (llama_process_user_prompt e st (some u) m).2.2 = some batch ∧
      batch.length
        = ((llama_process_user_prompt e st (some u) m).2.1).tokens.length ∧
      ∀ i, i < batch.length →
        (batch.getD i d).token
          = ((llama_process_user_prompt e st (some u) m).2.1).tokens.getD i 0 ∧
        (batch.getD i d).pos = i ∧
        ((batch.getD i d).logits = true ↔ i = batch.length - 1) := by
  have h1 := process_user_prompt_eq e st u m hload huser
  have htok : ((llama_process_user_prompt e st (some u) m).2.1).tokens
      = seqOf e st u := by rw [h1]
  refine ⟨mkPromptBatch (seqOf e st u), by rw [h1], ?_, ?_⟩
  · rw [mkPromptBatch_length, htok]
  · intro i hi
    rw [mkPromptBatch_length] at hi
    rw [mkPromptBatch_getD _ d i hi]
    refine ⟨by rw [htok], rfl, ?_⟩
    simp [mkPromptBatch_length]

/-- Witness for C2 at a concrete engine, session and prompt. -/
theorem llama_process_user_prompt_batch_layout_witness :
    loadedState.loaded = true ∧
    testEngine.tokenize "hi" false ≠ [] ∧
    (∃ batch,
      (llama_process_user_prompt testEngine loadedState (some "hi") 7).2.2
        = some batch ∧
      batch.length
        = ((llama_process_user_prompt testEngine loadedState
            (some "hi") 7).2.1).tokens.length ∧
      ∀ i, i < batch.length →
        (batch.getD i { token := 0, pos := 0, n_seq_id := 0, seq_id0 := 0,
                        logits := false }).token
          = ((llama_process_user_prompt testEngine loadedState
              (some "hi") 7).2.1).tokens.getD i 0 ∧
        (batch.getD i { token := 0, pos := 0, n_seq_id := 0, seq_id0 := 0,
                        logits := false }).pos = i ∧
        ((batch.getD i { token := 0, pos := 0, n_seq_id := 0, seq_id0 := 0,
                         logits := false }).logits = true
          ↔ i = batch.length - 1)) :=
  ⟨by decide, by decide,
   llama_process_user_prompt_batch_layout testEngine loadedState "hi" 7
     { token := 0, pos := 0, n_seq_id := 0, seq_id0 := 0, logits := false }
     (by decide) (by decide)⟩

/-- C4: when the sampled token is an end-of-generation marker,
`llama_generate_next_token` returns the null sentinel, mutates no state,
and issues no decode. -/
theorem llama_generate_next_token_eog (e : Engine) (sampled : Int)
    (st : LlamaContextInternal) (hload : st.loaded = true)
    (heog : e.isEog sampled = true) :
    llama_generate_next_token e sampled st = (none, st, none) := by
  simp [llama_generate_next_token, hload, heog]

/-- Witness for C4: token 99 is end-of-generation for the test engine. -/
theorem llama_generate_next_token_eog_witness :
    loadedState.loaded = true ∧
    testEngine.isEog 99 = true ∧
    llama_generate_next_token testEngine 99 loadedState = (none, loadedState, none) :=
  ⟨by decide, by decide,
   llama_generate_next_token_eog testEngine 99 loadedState (by decide) (by decide)⟩

/-- C9: `llama_reset_context` on a loaded session clears the tracked
tokens and the system prompt while keeping `loaded` and the three handles
untouched; on a not-loaded session it is a no-op. -/
theorem llama_reset_context_spec (st : LlamaContextInternal) :
    (st.loaded = true →
      (llama_reset_context st).tokens = [] ∧
      (llama_reset_context st).system_prompt = "" ∧
      (llama_reset_context st).loaded = true ∧
      (llama_reset_context st).model = st.model ∧
      (llama_reset_context st).ctx = st.ctx ∧
      (llama_reset_context st).sampler = st.sampler) ∧
    (st.loaded = false → llama_reset_context st = st) := by
  constructor <;> intro h <;> simp [llama_reset_context, h]

/-- Witness for C9 on a concrete loaded session. -/
theorem llama_reset_context_spec_witness :
    loadedState.loaded = true ∧
    ((llama_reset_context loadedState).tokens = [] ∧
     (llama_reset_context loadedState).system_prompt = "" ∧
     (llama_reset_context loadedState).loaded = true ∧
     (llama_reset_context loadedState).model = loadedState.model ∧
     (llama_reset_context loadedState).ctx = loadedState.ctx ∧
     (llama_reset_context loadedState).sampler = loadedState.sampler) :=
  ⟨by decide, (llama_reset_context_spec loadedState).1 (by decide)⟩

/-- C10: `llama_process_user_prompt` ignores its `max_tokens` argument:
any two values give the same result and post-state. -/
theorem llama_process_user_prompt_ignores_max_tokens (e : Engine)
    (st : LlamaContextInternal) (p : Option String) (m1 m2 : Int) :
    llama_process_user_prompt e st p m1 = llama_process_user_prompt e st p m2 :=
  rfl

theorem generate_next_token_eq (e : Engine) (sampled : Int)
    (st : LlamaContextInternal) (hload : st.loaded = true)
    (heog : e.isEog sampled = false) :
    llama_generate_next_token e sampled st =
      (if e.decode [{ token := sampled, pos := st.tokens.length, n_seq_id := 1,
                      seq_id0 := 0, logits := true }] ≠ 0 then none
       else some (e.tokenToPiece sampled),
       { st with tokens := st.tokens ++ [sampled] },
       some [{ token := sampled, pos := st.tokens.length, n_seq_id := 1,
               seq_id0 := 0, logits := true }]) := by
  unfold llama_generate_next_token
  simp [hload, heog]
  split <;> simp_all

/-- C3 counterexample: with an engine that renders the sampled token to
the empty string, a call that does not signal end-of-sequence returns an
empty text fragment (the claim requires a non-empty fragment). -/
theorem generate_next_token_empty_piece :
    (llama_generate_next_token emptyPieceEngine 7 loadedState).1 = some "" ∧
    ((llama_generate_next_token emptyPieceEngine 7 loadedState).2.1).tokens.length
      = loadedState.tokens.length + 1 := by decide

/-- C3 (amended): a `llama_generate_next_token` call that does not signal
end-of-sequence returns the rendered text fragment (non-empty whenever
the engine renders the sampled token to non-empty text), appends exactly
one token to the tracked sequence, and submits a one-entry batch at
position equal to the pre-call sequence length with logits requested. -/
theorem llama_generate_next_token_step (e : Engine) (sampled : Int)
    (st : LlamaContextInternal) (hload : st.loaded = true)
    (hres : (llama_generate_next_token e sampled st).1 ≠ none) :
    (llama_generate_next_token e sampled st).1 = some (e.tokenToPiece sampled) ∧
    (e.tokenToPiece sampled ≠ "" →
      (llama_generate_next_token e sampled st).1 ≠ some "") ∧
    ((llama_generate_next_token e sampled st).2.1).tokens
      = st.tokens ++ [sampled] ∧
    ((llama_generate_next_token e sampled st).2.1).tokens.length
      = st.tokens.length + 1 ∧
    (llama_generate_next_token e sampled st).2.2 =
      some [{ token := sampled, pos := st.tokens.length, n_seq_id := 1,
              seq_id0 := 0, logits := true }] := by
  by_cases heog : e.isEog sampled
  · simp [llama_generate_next_token, hload, heog] at hres
  · have heq := generate_next_token_eq e sampled st hload (by simpa using heog)
    rw [heq] at hres ⊢
    by_cases hd : e.decode [({ token := sampled, pos := st.tokens.length, n_seq_id := 1, seq_id0 := 0, logits := true } : BatchEntry)] = 0
    · simp [hd]
    · simp [hd] at hres

/-- Witness for C3 at a concrete engine, token and session. -/
theorem llama_generate_next_token_step_witness :
    loadedState.loaded = true ∧
    (llama_generate_next_token testEngine 7 loadedState).1 ≠ none ∧
    ((llama_generate_next_token testEngine 7 loadedState).1
        = some (testEngine.tokenToPiece 7) ∧
     (testEngine.tokenToPiece 7 ≠ "" →
       (llama_generate_next_token testEngine 7 loadedState).1 ≠ some "") ∧
     ((llama_generate_next_token testEngine 7 loadedState).2.1).tokens
        = loadedState.tokens ++ [7] ∧
     ((llama_generate_next_token testEngine 7 loadedState).2.1).tokens.length
        = loadedState.tokens.length + 1 ∧
     (llama_generate_next_token testEngine 7 loadedState).2.2 =
        some [{ token := 7, pos := loadedState.tokens.length, n_seq_id := 1,
                seq_id0 := 0, logits := true }]) :=
  ⟨by decide, by decide,
   llama_generate_next_token_step testEngine 7 loadedState
     (by decide) (by decide)⟩

theorem load_error_nonempty (path : String) :
    "Failed to load model from: " ++ path ≠ "" := by
  intro h
  have hlen := congrArg String.length h
  rw [String.length_append] at hlen
  have h27 : 0 < ("Failed to load model from: " : String).length := by decide
  have h0 : ("" : String).length = 0 := rfl
  rw [h0] at hlen
  omega

/-- C5 counterexample: when context creation fails, the recorded error is
"Failed to create context" (capitalized), not the claim's string
"failed to create context". -/
theorem create_context_error_case :
    (llama_create_context "model.gguf" 512 0 true false).last_error
        = "Failed to create context" ∧
    (llama_create_context "model.gguf" 512 0 true false).last_error
        ≠ "failed to create context" := by decide

/-- C5 (amended): every session returned by `llama_create_context` either
has loaded=true with all three handles non-null, or loaded=false with a
non-empty error and no retained model/context/sampler handle; when the
model loaded but context creation failed, the error is
"Failed to create context" and the model handle has been released. -/
theorem llama_create_context_states (path : String) (nc ng : Int)
    (mok cok : Bool) :
    (((llama_create_context path nc ng mok cok).loaded = true ∧
      (llama_create_context path nc ng mok cok).model = true ∧
      (llama_create_context path nc ng mok cok).ctx = true ∧
      (llama_create_context path nc ng mok cok).sampler = true) ∨
     ((llama_create_context path nc ng mok cok).loaded = false ∧
      (llama_create_context path nc ng mok cok).last_error ≠ "" ∧
      (llama_create_context path nc ng mok cok).model = false ∧
      (llama_create_context path nc ng mok cok).ctx = false ∧
      (llama_create_context path nc ng mok cok).sampler = false)) ∧
    (mok = true → cok = false →
      (llama_create_context path nc ng mok cok).last_error
          = "Failed to create context" ∧
      (llama_create_context path nc ng mok cok).model = false ∧
      (llama_create_context path nc ng mok cok).loaded = false) := by
  cases mok <;> cases cok <;>
    simp [llama_create_context, load_error_nonempty]

/-- Witness for C5's conditional part at a concrete failing create. -/
theorem llama_create_context_states_witness :
    (llama_create_context "model.gguf" 512 0 true false).last_error
        = "Failed to create context" ∧
    (llama_create_context "model.gguf" 512 0 true false).model = false ∧
    (llama_create_context "model.gguf" 512 0 true false).loaded = false :=
  (llama_create_context_states "model.gguf" 512 0 true false).2 rfl rfl

/-- C6 counterexample: on a not-loaded session,
`llama_set_system_prompt` returns -1 but is not state-preserving: it
overwrites `last_error` with "Model not loaded". -/
theorem set_system_prompt_not_loaded_mutates :
    (llama_set_system_prompt unloadedState (some "s")).1 = -1 ∧
    (llama_set_system_prompt unloadedState (some "s")).2 ≠ unloadedState := by
  decide

/-- C6 (amended): on a session with loaded=false, each operation returns
its failure code or null sentinel and touches no other state:
`llama_set_system_prompt` and `llama_process_user_prompt` change only
`last_error` (to "Model not loaded") and submit no decode, while
`llama_generate_next_token` changes nothing. -/
theorem not_loaded_ops_spec (e : Engine) (st : LlamaContextInternal)
    (p : String) (m sampled : Int) (h : st.loaded = false) :
    llama_set_system_prompt st (some p)
        = (-1, { st with last_error := "Model not loaded" }) ∧
    llama_process_user_prompt e st (some p) m
        = (-1, { st with last_error := "Model not loaded" }, none) ∧
    llama_generate_next_token e sampled st = (none, st, none) := by
  refine ⟨?_, ?_, ?_⟩ <;>
    simp [llama_set_system_prompt, llama_process_user_prompt,
      llama_generate_next_token, h]

/-- Witness for C6 on a concrete not-loaded session. -/
theorem not_loaded_ops_spec_witness :
    unloadedState.loaded = false ∧
    (llama_set_system_prompt unloadedState (some "s")
        = (-1, { unloadedState with last_error := "Model not loaded" }) ∧
     llama_process_user_prompt testEngine unloadedState (some "s") 3
        = (-1, { unloadedState with last_error := "Model not loaded" }, none) ∧
     llama_generate_next_token testEngine 7 unloadedState
        = (none, unloadedState, none)) :=
  ⟨by decide, not_loaded_ops_spec testEngine unloadedState "s" 3 7 (by decide)⟩

/-- C7 counterexample: when the user prompt tokenizes to zero tokens, the
recorded error is "Failed to tokenize user prompt" (capitalized), not the
claim's string "failed to tokenize user prompt"; no decode is submitted. -/
theorem process_user_prompt_tokenize_error_case :
    ((llama_process_user_prompt zeroTokEngine loadedState (some "u") 64).2.1).last_error
        = "Failed to tokenize user prompt" ∧
    ((llama_process_user_prompt zeroTokEngine loadedState (some "u") 64).2.1).last_error
        ≠ "failed to tokenize user prompt" ∧
    (llama_process_user_prompt zeroTokEngine loadedState (some "u") 64).2.2 = none := by
  decide

/-- C7 (amended): for a loaded session, if the user prompt tokenizes to
zero tokens then `llama_process_user_prompt` fails with the error
"Failed to tokenize user prompt" and submits no decode. -/
theorem llama_process_user_prompt_zero_tokens (e : Engine)
    (st : LlamaContextInternal) (u : String) (m : Int)
    (hload : st.loaded = true) (huser : e.tokenize u false = []) :
    (llama_process_user_prompt e st (some u) m).1 = -1 ∧
    ((llama_process_user_prompt e st (some u) m).2.1).last_error
        = "Failed to tokenize user prompt" ∧
    (llama_process_user_prompt e st (some u) m).2.2 = none := by
  unfold llama_process_user_prompt
  by_cases hs : st.system_prompt = "" <;> simp [hload, huser, hs]

/-- Witness for C7 at a concrete zero-token tokenizer. -/
theorem llama_process_user_prompt_zero_tokens_witness :
    loadedState.loaded = true ∧
    zeroTokEngine.tokenize "u" false = [] ∧
    ((llama_process_user_prompt zeroTokEngine loadedState (some "u") 64).1 = -1 ∧
     ((llama_process_user_prompt zeroTokEngine loadedState
        (some "u") 64).2.1).last_error = "Failed to tokenize user prompt" ∧
     (llama_process_user_prompt zeroTokEngine loadedState (some "u") 64).2.2
        = none) :=
  ⟨by decide, by decide,
   llama_process_user_prompt_zero_tokens zeroTokEngine loadedState "u" 64
     (by decide) (by decide)⟩

/-- C8 counterexample: when decode fails with code 5, the recorded error
is "Failed to decode prompt (code: 5)" (capitalized), not the claim's
string "failed to decode prompt (code: 5)". -/
theorem process_user_prompt_decode_error_case :
    ((llama_process_user_prompt failDecodeEngine loadedState (some "u") 64).2.1).last_error
        = "Failed to decode prompt (code: 5)" ∧
    ((llama_process_user_prompt failDecodeEngine loadedState (some "u") 64).2.1).last_error
        ≠ "failed to decode prompt (code: 5)" := by
  decide

/-- C8 (amended): for a loaded session, when the decode inside
`llama_process_user_prompt` returns a non-zero code `c`, the call fails
with `last_error` equal to "Failed to decode prompt (code: <c>)" and the
tracked sequence retains the newly built tokens
`tokenize(system) ++ tokenize(user)` (no rollback). -/
theorem llama_process_user_prompt_decode_failure (e : Engine)
    (st : LlamaContextInternal) (u : String) (m c : Int)
    (hload : st.loaded = true)
    (hempty : e.tokenize "" true = [])
    (huser : e.tokenize u false ≠ [])
    (hdec : e.decode (mkPromptBatch (seqOf e st u)) = c) (hc : c ≠ 0) :
    (llama_process_user_prompt e st (some u) m).1 = -1 ∧
    ((llama_process_user_prompt e st (some u) m).2.1).last_error
        = "Failed to decode prompt (code: " ++ toString c ++ ")" ∧
    ((llama_process_user_prompt e st (some u) m).2.1).tokens
        = e.tokenize st.system_prompt true ++ e.tokenize u false := by
  have h1 := process_user_prompt_eq e st u m hload huser
  rw [hdec] at h1
  rw [h1]
  simp [hc, seqOf_eq_append e st u hempty]

/-- Witness for C8 at a concrete always-failing decode. -/
theorem llama_process_user_prompt_decode_failure_witness :
    loadedState.loaded = true ∧
    failDecodeEngine.tokenize "" true = [] ∧
    failDecodeEngine.tokenize "u" false ≠ [] ∧
    failDecodeEngine.decode (mkPromptBatch (seqOf failDecodeEngine loadedState "u")) = 5 ∧
    ((llama_process_user_prompt failDecodeEngine loadedState (some "u") 64).1 = -1 ∧
     ((llama_process_user_prompt failDecodeEngine loadedState
        (some "u") 64).2.1).last_error
        = "Failed to decode prompt (code: " ++ toString (5 : Int) ++ ")" ∧
     ((llama_process_user_prompt failDecodeEngine loadedState
        (some "u") 64).2.1).tokens
        = failDecodeEngine.tokenize loadedState.system_prompt true
            ++ failDecodeEngine.tokenize "u" false) :=
  ⟨by decide, by decide, by decide, by decide,
   llama_process_user_prompt_decode_failure failDecodeEngine loadedState "u" 64 5
     (by decide) (by decide) (by decide) (by decide) (by decide)⟩
